import Mathlib

/-!
Verification of the hickory-dns UDP client transport
(crates/proto/src/udp/udp_client_stream.rs) and the object-safe authority
lookup surface (crates/server/src/authority/authority_object.rs), as a
shallow embedding.  Pure control flow is translated directly from the
source; collaborators that live outside the excerpt (the wire codec, the
lookup-control-flow type, lookup options, the receive-buffer ceiling) are
modelled from the specification and marked as such.
-/

namespace Hickory

/-- Modelled from the spec: a socket address is an IP address paired with a
port; IP and port are compared separately by the transport. -/
structure SocketAddr where
  ip : Nat
  port : Nat
deriving DecidableEq

/-- Modelled from the spec: a lower-cased canonical DNS name, a sequence of
labels compared byte-wise on the canonical form. -/
structure LowerName where
  labels : List String
deriving DecidableEq

/-- Modelled from the spec: the record-type enumeration, a closed set
including ANY, AXFR, SOA, NS, NSEC, NSEC3, RRSIG and the rest. -/
inductive RecordType where
  | A
  | AAAA
  | ANY
  | AXFR
  | CNAME
  | NS
  | NSEC
  | NSEC3
  | OPT
  | RRSIG
  | SOA
  | SRV
  | other (code : Nat)
deriving DecidableEq

/-- Modelled from the spec: a DNS question holds a lower-cased name, a
class and a record type, and is compared by set membership. -/
structure Query where
  name : LowerName
  query_class : Nat
  query_type : RecordType
deriving DecidableEq

/-- Modelled from the spec: a resource record; only its identity matters to
the claims, so it is an owner name, a type and opaque data. -/
structure Record where
  name_labels : LowerName
  record_type : RecordType
  rdata : List Nat
deriving DecidableEq

/-- Modelled from the spec: a DNS message with a 16-bit ID, a question
section, record sections and the EDNS maximum-payload value. -/
structure Message where
  id : Nat
  queries : List Query
  answers : List Record
  name_servers : List Record
  additionals : List Record
  max_payload : Nat
deriving DecidableEq

/-- Modelled from the spec: the proto-crate error type; a message-bearing
case for errors the excerpt constructs from strings, and an opaque case for
errors produced by collaborators outside the excerpt. -/
inductive ProtoError where
  | message (s : String)
  | other (code : Nat)
deriving DecidableEq

/-- Serial message (crate xfer): an owned byte buffer paired with the peer
socket address. -/
structure SerialMessage where
  bytes : List Nat
  addr : SocketAddr
deriving DecidableEq

/-- Modelled from the spec: a DNS response is the parsed message plus the
raw buffer it was parsed from, retained so verifiers can re-hash it. -/
structure DnsResponse where
  message : Message
  buffer : List Nat
deriving DecidableEq

/-- Modelled from the spec: a verifier closure takes the raw bytes of the
candidate response and returns a verified response or an error. -/
def MessageVerifier : Type := List Nat → Except ProtoError DnsResponse

/-- Modelled from the spec: a message finalizer is consulted through
should_finalize_message and, when it elects to act, finalize may rewrite
the message and hand back an optional verifier. -/
structure MessageFinalizer where
  should_finalize_message : Message → Bool
  finalize : Message → Nat → Except ProtoError (Message × Option MessageVerifier)

/-- UdpClientStream state (udp_client_stream.rs lines 35-45): peer address,
timeout, shutdown flag, optional signer, optional bind address and the
runtime-provider handle. -/
structure UdpClientStream (P : Type) where
  name_server : SocketAddr
  timeout : Nat
  is_shutdown : Bool
  signer : Option MessageFinalizer
  bind_addr : Option SocketAddr
  provider : P

/-- UdpClientConnect state (udp_client_stream.rs lines 266-275): the
configuration captured by the connect future. -/
structure UdpClientConnect (P : Type) where
  name_server : SocketAddr
  timeout : Nat
  signer : Option MessageFinalizer
  bind_addr : Option SocketAddr
  provider : P

/-- Constructor with_timeout_and_signer_and_bind_addr
(udp_client_stream.rs lines 121-135). -/
def UdpClientStream.with_timeout_and_signer_and_bind_addr {P : Type}
    (name_server : SocketAddr) (timeout : Nat) (signer : Option MessageFinalizer)
    (bind_addr : Option SocketAddr) (provider : P) : UdpClientConnect P :=
  { name_server := name_server, timeout := timeout, signer := signer,
    bind_addr := bind_addr, provider := provider }

/-- Constructor with_bind_addr_and_timeout (udp_client_stream.rs lines
82-89). -/
def UdpClientStream.with_bind_addr_and_timeout {P : Type}
    (name_server : SocketAddr) (bind_addr : Option SocketAddr) (timeout : Nat)
    (provider : P) : UdpClientConnect P :=
  UdpClientStream.with_timeout_and_signer_and_bind_addr name_server timeout none
    bind_addr provider

/-- Constructor with_timeout (udp_client_stream.rs lines 67-73). -/
def UdpClientStream.with_timeout {P : Type} (name_server : SocketAddr)
    (timeout : Nat) (provider : P) : UdpClientConnect P :=
  UdpClientStream.with_bind_addr_and_timeout name_server none timeout provider

/-- Constructor new (udp_client_stream.rs lines 57-59), with the default
five-second timeout expressed in seconds. -/
def UdpClientStream.new {P : Type} (name_server : SocketAddr) (provider : P) :
    UdpClientConnect P :=
  UdpClientStream.with_timeout name_server 5 provider

/-- Poll outcome of a Rust future or stream. -/
inductive Poll (α : Type) where
  | ready (value : α)
  | pending

/-- Stream::poll_next for UdpClientStream (udp_client_stream.rs lines
252-263): ready None once shut down, otherwise ready Some(Ok(())). -/
def UdpClientStream.poll_next {P : Type} (s : UdpClientStream P) :
    Poll (Option (Except ProtoError Unit)) :=
  if s.is_shutdown then Poll.ready none else Poll.ready (some (Except.ok ()))

/-- DnsRequestSender::shutdown (udp_client_stream.rs lines 242-244). -/
def UdpClientStream.shutdown {P : Type} (s : UdpClientStream P) : UdpClientStream P :=
  { s with is_shutdown := true }

/-- Future::poll for UdpClientConnect (udp_client_stream.rs lines 277-291):
always ready, moving the signer out of the future (self.signer.take()). -/
def UdpClientConnect.poll {P : Type} (c : UdpClientConnect P) :
    UdpClientConnect P × Poll (Except ProtoError (UdpClientStream P)) :=
  ({ c with signer := none },
    Poll.ready (Except.ok
      { name_server := c.name_server, is_shutdown := false, timeout := c.timeout,
        signer := c.signer, bind_addr := c.bind_addr, provider := c.provider }))

/-- Modelled from the spec: the transport-wide receive-buffer ceiling, at
least 4096 bytes; the constant is declared in the udp module outside the
excerpt. -/
def MAX_RECEIVE_BUFFER_SIZE : Nat := 4096

/-- Environment an individual send_message call consumes: the random draw
behind random_query_id, the system-clock reading as seconds since the Unix
epoch (none when the current time precedes the epoch), and the wire
serializer of the message codec, which lives outside the excerpt. -/
structure SendEnv where
  random_value : Nat
  now_result : Option Nat
  to_vec : Message → Except ProtoError (List Nat)

/-- Function random_query_id (udp_client_stream.rs lines 170-175): a
random 16-bit query id; the sampled value comes from the environment. -/
def random_query_id (env : SendEnv) : Nat :=
  env.random_value % 65536

/-- Message::set_id, as used at udp_client_stream.rs line 185. -/
def Message.set_id (m : Message) (new_id : Nat) : Message :=
  { m with id := new_id }

/-- Signer consultation inside send_message (udp_client_stream.rs lines
195-206): when a signer is present and elects to finalize the message, run
finalize, which may rewrite the message and yield a verifier. -/
def finalizeStep (signer : Option MessageFinalizer) (message : Message) (now : Nat) :
    Except ProtoError (Message × Option MessageVerifier) :=
  match signer with
  | none => Except.ok (message, none)
  | some s =>
    if s.should_finalize_message message then s.finalize message now
    else Except.ok (message, none)

/-- Outcome of send_message before any datagram exchange: a panic on
programmer misuse, an immediate error response-stream, or a dispatched
query described by its id, serial message, receive-buffer size, optional
verifier and timeout. -/
inductive SendMessageResult where
  | panicked (s : String)
  | error (e : ProtoError)
  | sent (message_id : Nat) (serial : SerialMessage) (recv_buf_size : Nat)
      (verifier : Option MessageVerifier) (timeout : Nat)

/-- DnsRequestSender::send_message for UdpClientStream (udp_client_stream.rs
lines 178-240), up to handing the serial message to the timeout-wrapped
socket future: panic after shutdown, assign a fresh random id, read the
clock (failing if before the epoch) and truncate to 32 bits for the signer,
consult the signer, size the receive buffer, serialize, and dispatch. -/
def send_message {P : Type} (env : SendEnv) (stream : UdpClientStream P)
    (message0 : Message) : SendMessageResult :=
  if stream.is_shutdown then
    SendMessageResult.panicked ("can not send messages after stream is shutdown")
  else
    let message := message0.set_id (random_query_id env)
    match env.now_result with
    | none => SendMessageResult.error (ProtoError.message ("Current time is before the Unix epoch."))
    | some t =>
      let now := t % 4294967296
      match finalizeStep stream.signer message now with
      | Except.error e => SendMessageResult.error e
      | Except.ok (message1, verifier) =>
        let recv_buf_size := min MAX_RECEIVE_BUFFER_SIZE message1.max_payload
        match env.to_vec message1 with
        | Except.error err => SendMessageResult.error err
        | Except.ok bytes =>
          SendMessageResult.sent message1.id (SerialMessage.mk bytes stream.name_server)
            recv_buf_size verifier stream.timeout

/-- Result of the socket phase of one send: a delivered response, a
surfaced error, or still waiting on the socket when the modelled datagram
sequence is exhausted (the timeout is the sole upper bound). -/
inductive LoopResult where
  | delivered (r : DnsResponse)
  | errored (e : ProtoError)
  | waiting
deriving DecidableEq

/-- Receive loop of send_serial_message_inner (udp_client_stream.rs lines
317-405): for each incoming datagram apply, in order, the source filter,
the parse filter, the id filter and the question filter, dropping the
datagram and continuing on any failure; on the first datagram passing all
four, either invoke the verifier on the raw bytes or build the response
from the parsed message plus raw bytes.  The datagram payload is truncated
to the receive-buffer size, and the request is re-parsed (propagating a
parse error) to obtain its question set. -/
def recvLoop (from_vec : List Nat → Except ProtoError Message) (msg : SerialMessage)
    (msg_id : Nat) (verifier : Option MessageVerifier) (recv_buf_size : Nat) :
    List (SocketAddr × List Nat) → LoopResult
  | [] => LoopResult.waiting
  | (src, data) :: rest =>
    let buffer := data.take recv_buf_size
    let request_target := msg.addr
    if src.ip ≠ request_target.ip ∨ src.port ≠ request_target.port then
      recvLoop from_vec msg msg_id verifier recv_buf_size rest
    else
      match from_vec buffer with
      | Except.ok message =>
        if msg_id ≠ message.id then
          recvLoop from_vec msg msg_id verifier recv_buf_size rest
        else
          match from_vec msg.bytes with
          | Except.error e => LoopResult.errored e
          | Except.ok request_message =>
            if ¬ (message.queries.all fun elem => request_message.queries.contains elem) then
              recvLoop from_vec msg msg_id verifier recv_buf_size rest
            else
              match verifier with
              | some v =>
                match v buffer with
                | Except.ok r => LoopResult.delivered r
                | Except.error e => LoopResult.errored e
              | none => LoopResult.delivered (DnsResponse.mk message buffer)
      | Except.error _ => recvLoop from_vec msg msg_id verifier recv_buf_size rest

/-- Function send_serial_message_inner (udp_client_stream.rs lines
293-406): send the serialized bytes, fail when the socket reports an error
or a short send, otherwise run the receive loop.  The socket's send result
is an environment input. -/
def send_serial_message_inner (from_vec : List Nat → Except ProtoError Message)
    (msg : SerialMessage) (msg_id : Nat) (verifier : Option MessageVerifier)
    (recv_buf_size : Nat) (send_result : Except ProtoError Nat)
    (datagrams : List (SocketAddr × List Nat)) : LoopResult :=
  match send_result with
  | Except.error e => LoopResult.errored e
  | Except.ok len_sent =>
    if msg.bytes.length ≠ len_sent then
      LoopResult.errored (ProtoError.message
        ("Not all bytes of message sent, " ++ toString len_sent ++ " of " ++
          toString msg.bytes.length))
    else
      recvLoop from_vec msg msg_id verifier recv_buf_size datagrams

/-- Conjunction of the four receive filters, relative to the re-parsed
request req: source IP and port match the peer, the truncated payload
parses, the parsed id equals the query id, and every response question is
contained in the request's question set. -/
def passesFilters (from_vec : List Nat → Except ProtoError Message)
    (msg : SerialMessage) (msg_id : Nat) (recv_buf_size : Nat) (req : Message)
    (src : SocketAddr) (data : List Nat) : Bool :=
  (src.ip == msg.addr.ip && src.port == msg.addr.port) &&
    match from_vec (data.take recv_buf_size) with
    | Except.ok m =>
      (msg_id == m.id) && (m.queries.all fun elem => req.queries.contains elem)
    | Except.error _ => false

/-- DNSSEC status of an answer (authority_object.rs lines 240-249). -/
inductive DnssecSummary where
  | Secure
  | Bogus
  | Insecure
deriving DecidableEq

/-- Behavioural view of a boxed lookup trait object: emptiness, the record
sequence, the optional chained additionals and the DNSSEC summary. -/
inductive DynLookup where
  | obj (is_empty : Bool) (records : List Record) (additionals : Option DynLookup)
      (summary : DnssecSummary)

/-- Object-safe LookupObject trait (authority_object.rs lines 251-268), as
a dictionary over the concrete lookup type; take_additionals may mutate
the lookup, so it returns the updated state, and dnssec_summary carries
the trait default of Insecure. -/
structure LookupObjectImpl (L : Type) where
  is_empty : L → Bool
  iter : L → List Record
  take_additionals : L → Option DynLookup × L
  dnssec_summary : L → DnssecSummary := fun _ => DnssecSummary.Insecure

/-- A lookup that returns no records (authority_object.rs lines 270-272). -/
inductive EmptyLookup where
  | mk
deriving DecidableEq

/-- The LookupObject implementation for EmptyLookup (authority_object.rs
lines 274-286): empty, no records, never any additionals; dnssec_summary
is left to the trait default. -/
def emptyLookupImpl : LookupObjectImpl EmptyLookup where
  is_empty := fun _ => true
  iter := fun _ => []
  take_additionals := fun l => (none, l)

/-- Modelled from the spec: zone types of an authority backend. -/
inductive ZoneType where
  | Primary
  | Secondary
  | External
  | Hint
  | Forward
deriving DecidableEq

/-- Modelled from the spec: a backend-specific lookup error propagated
inside the lookup-control-flow result. -/
structure LookupError where
  msg : String
deriving DecidableEq

/-- Modelled from the spec: an error returned through the update-result of
a dynamic update, carrying a response code. -/
structure UpdateError where
  code : Nat
deriving DecidableEq

/-- Modelled from the spec: the dynamic-update request message handed to an
authority. -/
structure MessageRequest where
  message : Message
deriving DecidableEq

/-- Modelled from the spec: per-request information handed to search,
carrying the query. -/
structure RequestInfo where
  query : Query
deriving DecidableEq

/-- Modelled from the spec: query-time lookup options, holding the
DNSSEC-OK flag and the EDNS version. -/
structure LookupOptions where
  dnssec_ok : Bool
  edns_version : Nat
deriving DecidableEq

/-- Modelled from the spec: default lookup options, which do not set the
DO bit, so no RRSIGs are requested. -/
def LookupOptions.default : LookupOptions :=
  { dnssec_ok := false, edns_version := 0 }

/-- Modelled from the spec: lookup-control-flow, the tri-state outcome
Continue / Break / Skip whose result is either a lookup or an error. -/
inductive LookupControlFlow (α : Type) where
  | Continue (result : Except LookupError α)
  | Break (result : Except LookupError α)
  | Skip

/-- Modelled from the spec: the map_dyn adapter converts the native lookup
payload (in the source, by boxing it as a trait object) while preserving
the lookup-control-flow variant and the lookup-or-error distinction. -/
def LookupControlFlow.map_dyn {α β : Type} (f : α → β) :
    LookupControlFlow α → LookupControlFlow β
  | LookupControlFlow.Continue (Except.ok lookup) =>
      LookupControlFlow.Continue (Except.ok (f lookup))
  | LookupControlFlow.Continue (Except.error e) =>
      LookupControlFlow.Continue (Except.error e)
  | LookupControlFlow.Break (Except.ok lookup) =>
      LookupControlFlow.Break (Except.ok (f lookup))
  | LookupControlFlow.Break (Except.error e) =>
      LookupControlFlow.Break (Except.error e)
  | LookupControlFlow.Skip => LookupControlFlow.Skip

/-- Modelled from the spec: the generic Authority trait, parameterized over
the associated lookup type; the member list follows the object-safe
implementation in authority_object.rs, without the dnssec-gated members. -/
structure Authority (L : Type) where
  zone_type : ZoneType
  is_axfr_allowed : Bool
  can_validate_dnssec : Bool
  origin : LowerName
  update : MessageRequest → Except UpdateError Bool
  lookup : LowerName → RecordType → LookupOptions → LookupControlFlow L
  search : RequestInfo → LookupOptions → LookupControlFlow L
  get_nsec_records : LowerName → LookupOptions → LookupControlFlow L

/-- Blanket object-safe AuthorityObject implementation for any Authority
(authority_object.rs lines 129-238): zone_type, is_axfr_allowed,
can_validate_dnssec, origin and update delegate unchanged; lookup, search
and get_nsec_records delegate and adapt the native result via map_dyn,
where boxing the concrete lookup is the function toDyn. -/
def authorityObjectImpl {L : Type} (toDyn : L → DynLookup) (a : Authority L) :
    Authority DynLookup where
  zone_type := a.zone_type
  is_axfr_allowed := a.is_axfr_allowed
  can_validate_dnssec := a.can_validate_dnssec
  origin := a.origin
  update := fun u => a.update u
  lookup := fun name rtype lookup_options =>
    (a.lookup name rtype lookup_options).map_dyn toDyn
  search := fun request_info lookup_options =>
    (a.search request_info lookup_options).map_dyn toDyn
  get_nsec_records := fun name lookup_options =>
    (a.get_nsec_records name lookup_options).map_dyn toDyn

/-- Default method AuthorityObject::ns (authority_object.rs lines 79-82):
a lookup of the origin at record type NS under the given options. -/
def Authority.ns {L : Type} (ao : Authority L) (lookup_options : LookupOptions) :
    LookupControlFlow L :=
  ao.lookup ao.origin RecordType.NS lookup_options

/-- Default method AuthorityObject::soa (authority_object.rs lines
105-113): a lookup of the origin at record type SOA under default options,
for internal use, so no RRSIGs are requested. -/
def Authority.soa {L : Type} (ao : Authority L) : LookupControlFlow L :=
  ao.lookup ao.origin RecordType.SOA LookupOptions.default

/-- Default method AuthorityObject::soa_secure (authority_object.rs lines
115-122): a lookup of the origin at record type SOA under the given
options, so RRSIGs follow the DO bit of the options. -/
def Authority.soa_secure {L : Type} (ao : Authority L)
    (lookup_options : LookupOptions) : LookupControlFlow L :=
  ao.lookup ao.origin RecordType.SOA lookup_options

/-- Relation stating that a boxed lookup-control-flow value adapts a native
one: the variants agree, ok lookups are boxed by toDyn, and errors pass
through unchanged. -/
def adapts {L : Type} (toDyn : L → DynLookup) :
    LookupControlFlow L → LookupControlFlow DynLookup → Prop
  | LookupControlFlow.Continue (Except.ok lookup),
    LookupControlFlow.Continue (Except.ok d) => d = toDyn lookup
  | LookupControlFlow.Continue (Except.error e),
    LookupControlFlow.Continue (Except.error e2) => e2 = e
  | LookupControlFlow.Break (Except.ok lookup),
    LookupControlFlow.Break (Except.ok d) => d = toDyn lookup
  | LookupControlFlow.Break (Except.error e),
    LookupControlFlow.Break (Except.error e2) => e2 = e
  | LookupControlFlow.Skip, LookupControlFlow.Skip => True
  | _, _ => False

/-- Concrete sample question for evaluating the transport definitions. -/
def sampleQuery : Query :=
  ⟨⟨["example", "com"]⟩, 1, RecordType.A⟩

/-- Concrete sample answer record. -/
def sampleARecord : Record :=
  ⟨⟨["example", "com"]⟩, RecordType.A, [93, 184, 216, 34]⟩

/-- Concrete sample request message with id 5 and one question. -/
def sampleRequest : Message :=
  ⟨5, [sampleQuery], [], [], [], 512⟩

/-- Concrete sample response message with the matching id and question and
one answer record. -/
def sampleResponse : Message :=
  ⟨5, [sampleQuery], [sampleARecord], [], [], 512⟩

/-- Concrete sample wire codec: the bytes [9] parse to the sample response,
the bytes [1, 2] parse to the sample request, anything else is malformed. -/
def sampleCodec : List Nat → Except ProtoError Message := fun data =>
  if data = [9] then Except.ok sampleResponse
  else if data = [1, 2] then Except.ok sampleRequest
  else Except.error (ProtoError.other 0)

/-- Concrete sample serial message: the request bytes addressed to the
peer at ip 10, port 53. -/
def sampleSerial : SerialMessage :=
  ⟨[1, 2], ⟨10, 53⟩⟩

/-!
Theorems settling the claims.
-/

/-- C2: for every type implementing the generic Authority trait, the
blanket object-safe AuthorityObject implementation behaves identically to
the underlying authority: zone_type, is_axfr_allowed, can_validate_dnssec,
origin and update delegate unchanged, while lookup, search and
get_nsec_records return the same lookup-control-flow variant and the same
lookup-or-error result as the native method, adapted by map_dyn. -/
theorem authority_object_blanket_impl_refines {L : Type} (toDyn : L → DynLookup)
    (a : Authority L) (name : LowerName) (rtype : RecordType)
    (lookup_options : LookupOptions) (request_info : RequestInfo)
    (u : MessageRequest) :
    (authorityObjectImpl toDyn a).zone_type = a.zone_type ∧
    (authorityObjectImpl toDyn a).is_axfr_allowed = a.is_axfr_allowed ∧
    (authorityObjectImpl toDyn a).can_validate_dnssec = a.can_validate_dnssec ∧
    (authorityObjectImpl toDyn a).origin = a.origin ∧
    (authorityObjectImpl toDyn a).update u = a.update u ∧
    adapts toDyn (a.lookup name rtype lookup_options)
      ((authorityObjectImpl toDyn a).lookup name rtype lookup_options) ∧
    adapts toDyn (a.search request_info lookup_options)
      ((authorityObjectImpl toDyn a).search request_info lookup_options) ∧
    adapts toDyn (a.get_nsec_records name lookup_options)
      ((authorityObjectImpl toDyn a).get_nsec_records name lookup_options) := by
  refine ⟨rfl, rfl, rfl, rfl, rfl, ?_, ?_, ?_⟩
  · show adapts toDyn (a.lookup name rtype lookup_options)
      ((a.lookup name rtype lookup_options).map_dyn toDyn)
    rcases a.lookup name rtype lookup_options with r | r | _
    · rcases r with e | l <;> simp [adapts, LookupControlFlow.map_dyn]
    · rcases r with e | l <;> simp [adapts, LookupControlFlow.map_dyn]
    · simp [adapts, LookupControlFlow.map_dyn]
  · show adapts toDyn (a.search request_info lookup_options)
      ((a.search request_info lookup_options).map_dyn toDyn)
    rcases a.search request_info lookup_options with r | r | _
    · rcases r with e | l <;> simp [adapts, LookupControlFlow.map_dyn]
    · rcases r with e | l <;> simp [adapts, LookupControlFlow.map_dyn]
    · simp [adapts, LookupControlFlow.map_dyn]
  · show adapts toDyn (a.get_nsec_records name lookup_options)
      ((a.get_nsec_records name lookup_options).map_dyn toDyn)
    rcases a.get_nsec_records name lookup_options with r | r | _
    · rcases r with e | l <;> simp [adapts, LookupControlFlow.map_dyn]
    · rcases r with e | l <;> simp [adapts, LookupControlFlow.map_dyn]
    · simp [adapts, LookupControlFlow.map_dyn]

/-- C3: after shutdown has been called on a UdpClientStream, send_message
panics (a fatal programmer error rather than a recoverable error value),
and is_shutdown reports true. -/
theorem send_after_shutdown_panics {P : Type} (env : SendEnv)
    (stream : UdpClientStream P) (m : Message) :
    send_message env stream.shutdown m =
      SendMessageResult.panicked ("can not send messages after stream is shutdown") ∧
    (stream.shutdown).is_shutdown = true := by
  constructor
  · simp [send_message, UdpClientStream.shutdown]
  · rfl

/-- C7: the convenience methods of an authority object are expressed by
lookup at the origin: ns(options) is lookup(origin, NS, options); soa() is
lookup(origin, SOA, default options), whose DO bit is unset, so no RRSIGs
are requested; soa_secure(options) is lookup(origin, SOA, options), so
RRSIG attachment follows the DO bit of the options. -/
theorem convenience_methods_via_lookup {L : Type} (ao : Authority L)
    (lookup_options : LookupOptions) :
    ao.ns lookup_options = ao.lookup ao.origin RecordType.NS lookup_options ∧
    ao.soa = ao.lookup ao.origin RecordType.SOA LookupOptions.default ∧
    LookupOptions.default.dnssec_ok = false ∧
    ao.soa_secure lookup_options =
      ao.lookup ao.origin RecordType.SOA lookup_options :=
  ⟨rfl, rfl, rfl, rfl⟩

/-- C8: the EmptyLookup lookup-object is empty, iterates over zero records,
returns none from take_additionals on every call (leaving its state
unchanged), and reports the trait-default DNSSEC summary Insecure. -/
theorem empty_lookup_canonical (l : EmptyLookup) :
    emptyLookupImpl.is_empty l = true ∧
    emptyLookupImpl.iter l = [] ∧
    (emptyLookupImpl.iter l).length = 0 ∧
    emptyLookupImpl.take_additionals l = (none, l) ∧
    emptyLookupImpl.dnssec_summary l = DnssecSummary.Insecure :=
  ⟨rfl, rfl, rfl, rfl, rfl⟩

/-- C9: polling the UdpClientStream as a stream is always ready, yielding
one unit item while the shutdown flag is unset and end-of-stream (none)
once shutdown has been called; in particular it is never pending. -/
theorem stream_poll_next_always_ready {P : Type} (s : UdpClientStream P) :
    s.poll_next =
      Poll.ready (if s.is_shutdown then none else some (Except.ok ())) := by
  by_cases h : s.is_shutdown <;> simp [UdpClientStream.poll_next, h]

/-- C10: the UdpClientConnect future completes immediately with a ready
stream whose shutdown flag is false, but its poll takes the signer out of
the future: the stream produced by the first poll carries the configured
signer, while the stream produced by polling the updated future again has
no signer. -/
theorem connect_poll_ready_and_moves_signer {P : Type} (c : UdpClientConnect P) :
    (c.poll).2 = Poll.ready (Except.ok
      { name_server := c.name_server, timeout := c.timeout, is_shutdown := false,
        signer := c.signer, bind_addr := c.bind_addr, provider := c.provider }) ∧
    ((c.poll).1).signer = none ∧
    (((c.poll).1).poll).2 = Poll.ready (Except.ok
      { name_server := c.name_server, timeout := c.timeout, is_shutdown := false,
        signer := none, bind_addr := c.bind_addr, provider := c.provider }) :=
  ⟨rfl, rfl, rfl⟩

/-- C4: when the system time precedes the Unix epoch, send_message returns
an error response-stream immediately, before any signing, serialization or
socket step (the result is a fixed error value, independent of the signer
and the serializer); otherwise the epoch-seconds value handed to the
signer is the clock reading truncated to 32 bits. -/
theorem send_message_epoch_check {P : Type} (env : SendEnv)
    (stream : UdpClientStream P) (m : Message)
    (hs : stream.is_shutdown = false) :
    (env.now_result = none →
      send_message env stream m = SendMessageResult.error
        (ProtoError.message ("Current time is before the Unix epoch."))) ∧
    (∀ t, env.now_result = some t →
      send_message env stream m =
        match finalizeStep stream.signer (m.set_id (random_query_id env))
            (t % 4294967296) with
        | Except.error e => SendMessageResult.error e
        | Except.ok (message1, verifier) =>
          match env.to_vec message1 with
          | Except.error err => SendMessageResult.error err
          | Except.ok bytes =>
            SendMessageResult.sent message1.id
              (SerialMessage.mk bytes stream.name_server)
              (min MAX_RECEIVE_BUFFER_SIZE message1.max_payload) verifier
              stream.timeout) := by
  constructor
  · intro hnone
    simp [send_message, hs, hnone]
  · intro t ht
    simp [send_message, hs, ht]

/-- Witness for C4 at concrete inputs: a clock before the epoch yields the
error, and a clock at 100 seconds yields a dispatched query. -/
theorem send_message_epoch_check_witness :
    ((⟨⟨1, 53⟩, 5, false, none, none, ()⟩ : UdpClientStream Unit).is_shutdown = false) ∧
    send_message ⟨7, none, fun _ => Except.ok []⟩
        (⟨⟨1, 53⟩, 5, false, none, none, ()⟩ : UdpClientStream Unit)
        ⟨0, [], [], [], [], 512⟩ =
      SendMessageResult.error
        (ProtoError.message ("Current time is before the Unix epoch.")) ∧
    send_message ⟨7, some 100, fun _ => Except.ok []⟩
        (⟨⟨1, 53⟩, 5, false, none, none, ()⟩ : UdpClientStream Unit)
        ⟨0, [], [], [], [], 512⟩ =
      SendMessageResult.sent 7 (SerialMessage.mk [] ⟨1, 53⟩)
        (min MAX_RECEIVE_BUFFER_SIZE 512) none 5 := by
  refine ⟨rfl, ?_, ?_⟩
  · exact (send_message_epoch_check ⟨7, none, fun _ => Except.ok []⟩
      (⟨⟨1, 53⟩, 5, false, none, none, ()⟩ : UdpClientStream Unit)
      ⟨0, [], [], [], [], 512⟩ rfl).1 rfl
  · have h := (send_message_epoch_check ⟨7, some 100, fun _ => Except.ok []⟩
      (⟨⟨1, 53⟩, 5, false, none, none, ()⟩ : UdpClientStream Unit)
      ⟨0, [], [], [], [], 512⟩ rfl).2 100 rfl
    exact h

/-- C5: when the socket reports fewer bytes sent than the serialized
message length, send_serial_message_inner fails with the short-send error,
for every datagram sequence, so the receive loop is never entered; when the
full length is sent, the transport proceeds to the receive loop. -/
theorem short_send_is_error (from_vec : List Nat → Except ProtoError Message)
    (msg : SerialMessage) (msg_id : Nat) (verifier : Option MessageVerifier)
    (recv_buf_size : Nat) (len_sent : Nat)
    (datagrams : List (SocketAddr × List Nat)) :
    (msg.bytes.length ≠ len_sent →
      send_serial_message_inner from_vec msg msg_id verifier recv_buf_size
          (Except.ok len_sent) datagrams =
        LoopResult.errored (ProtoError.message
          ("Not all bytes of message sent, " ++ toString len_sent ++ " of " ++
            toString msg.bytes.length))) ∧
    (msg.bytes.length = len_sent →
      send_serial_message_inner from_vec msg msg_id verifier recv_buf_size
          (Except.ok len_sent) datagrams =
        recvLoop from_vec msg msg_id verifier recv_buf_size datagrams) := by
  constructor <;> intro h <;> simp [send_serial_message_inner, h]

/-- Witness for C5 at concrete inputs: a two-byte message with one byte
sent errors, and with two bytes sent reaches the (empty) receive loop. -/
theorem short_send_is_error_witness :
    ((SerialMessage.mk [0, 1] ⟨1, 53⟩).bytes.length ≠ 1) ∧
    send_serial_message_inner (fun _ => Except.error (ProtoError.other 0))
        (SerialMessage.mk [0, 1] ⟨1, 53⟩) 7 none 512 (Except.ok 1) [] =
      LoopResult.errored (ProtoError.message
        ("Not all bytes of message sent, " ++ toString 1 ++ " of " ++
          toString (SerialMessage.mk [0, 1] (SocketAddr.mk 1 53)).bytes.length)) ∧
    send_serial_message_inner (fun _ => Except.error (ProtoError.other 0))
        (SerialMessage.mk [0, 1] ⟨1, 53⟩) 7 none 512 (Except.ok 2) [] =
      LoopResult.waiting := by
  refine ⟨by decide, ?_, ?_⟩
  · exact (short_send_is_error (fun _ => Except.error (ProtoError.other 0))
      (SerialMessage.mk [0, 1] ⟨1, 53⟩) 7 none 512 1 []).1 (by decide)
  · have h := (short_send_is_error (fun _ => Except.error (ProtoError.other 0))
      (SerialMessage.mk [0, 1] ⟨1, 53⟩) 7 none 512 2 []).2 (by decide)
    simpa [recvLoop] using h

/-- C6: on the successful path of send_message the receive-buffer size is
exactly min(MAX_RECEIVE_BUFFER_SIZE, max_payload of the finalized
message), and MAX_RECEIVE_BUFFER_SIZE is at least 4096 bytes. -/
theorem recv_buffer_size_is_min {P : Type} (env : SendEnv)
    (stream : UdpClientStream P) (m : Message) (t : Nat) (message1 : Message)
    (verifier : Option MessageVerifier) (bytes : List Nat)
    (hs : stream.is_shutdown = false)
    (ht : env.now_result = some t)
    (hf : finalizeStep stream.signer (m.set_id (random_query_id env))
      (t % 4294967296) = Except.ok (message1, verifier))
    (hv : env.to_vec message1 = Except.ok bytes) :
    send_message env stream m =
      SendMessageResult.sent message1.id
        (SerialMessage.mk bytes stream.name_server)
        (min MAX_RECEIVE_BUFFER_SIZE message1.max_payload) verifier
        stream.timeout ∧
    4096 ≤ MAX_RECEIVE_BUFFER_SIZE := by
  constructor
  · simp [send_message, hs, ht, hf, hv]
  · decide

/-- Witness for C6 at concrete inputs: an unsigned 512-byte-payload message
gets a 512-byte receive buffer, the minimum of the 4096-byte ceiling and
its maximum payload. -/
theorem recv_buffer_size_is_min_witness :
    ((⟨7, some 100, fun _ => Except.ok []⟩ : SendEnv).now_result = some 100) ∧
    send_message (⟨7, some 100, fun _ => Except.ok []⟩ : SendEnv)
        (⟨⟨1, 53⟩, 5, false, none, none, ()⟩ : UdpClientStream Unit)
        ⟨0, [], [], [], [], 512⟩ =
      SendMessageResult.sent 7 (SerialMessage.mk [] ⟨1, 53⟩)
        (min MAX_RECEIVE_BUFFER_SIZE 512) none 5 ∧
    4096 ≤ MAX_RECEIVE_BUFFER_SIZE := by
  refine ⟨rfl, ?_⟩
  have h := recv_buffer_size_is_min (⟨7, some 100, fun _ => Except.ok []⟩ : SendEnv)
    (⟨⟨1, 53⟩, 5, false, none, none, ()⟩ : UdpClientStream Unit)
    ⟨0, [], [], [], [], 512⟩ 100 ⟨7, [], [], [], [], 512⟩ none [] rfl rfl rfl rfl
  exact h

/-- Helper: a datagram failing any of the four filters is dropped and the
receive loop continues on the remaining datagrams, never surfacing an
error, provided the original request re-parses. -/
theorem recvLoop_drop_step (from_vec : List Nat → Except ProtoError Message)
    (msg : SerialMessage) (msg_id : Nat) (verifier : Option MessageVerifier)
    (recv_buf_size : Nat) (req : Message) (src : SocketAddr) (data : List Nat)
    (rest : List (SocketAddr × List Nat))
    (hreq : from_vec msg.bytes = Except.ok req)
    (hfail : passesFilters from_vec msg msg_id recv_buf_size req src data = false) :
    recvLoop from_vec msg msg_id verifier recv_buf_size ((src, data) :: rest) =
      recvLoop from_vec msg msg_id verifier recv_buf_size rest := by
  unfold passesFilters at hfail
  simp only [recvLoop, hreq]
  split
  · rfl
  · next hsrc =>
    push_neg at hsrc
    obtain ⟨hip, hport⟩ := hsrc
    rw [hip, hport] at hfail
    simp only [beq_self_eq_true, Bool.and_self, Bool.true_and] at hfail
    split
    · next message hm =>
      simp only [hm] at hfail
      split
      · rfl
      · next hid =>
        push_neg at hid
        split
        · rfl
        · next hq =>
          exfalso
          push_neg at hq
          rw [hid, hq] at hfail
          simp at hfail
    · rfl

/-- Helper: a response delivered by the receive loop without a verifier was
built from a datagram that passed all four filters: its source matches the
peer, its payload parses to the delivered message, the message id equals
the query id, and every response question is contained in the re-parsed
request's questions. -/
theorem recvLoop_delivered_none (from_vec : List Nat → Except ProtoError Message)
    (msg : SerialMessage) (msg_id : Nat) (recv_buf_size : Nat) (req : Message)
    (hreq : from_vec msg.bytes = Except.ok req) :
    ∀ (datagrams : List (SocketAddr × List Nat)) (r : DnsResponse),
      recvLoop from_vec msg msg_id none recv_buf_size datagrams =
        LoopResult.delivered r →
      r.message.id = msg_id ∧
      (∀ q ∈ r.message.queries, q ∈ req.queries) ∧
      ∃ src data, (src, data) ∈ datagrams ∧ src.ip = msg.addr.ip ∧
        src.port = msg.addr.port ∧
        from_vec (data.take recv_buf_size) = Except.ok r.message ∧
        r.buffer = data.take recv_buf_size := by
  intro datagrams
  induction datagrams with
  | nil => intro r h; simp [recvLoop] at h
  | cons hd tl ih =>
    obtain ⟨src, data⟩ := hd
    intro r h
    simp only [recvLoop, hreq] at h
    split at h
    · obtain ⟨hid, hq, src2, data2, hmem, hrest⟩ := ih r h
      exact ⟨hid, hq, src2, data2, List.mem_cons_of_mem _ hmem, hrest⟩
    · next hsrc =>
      push_neg at hsrc
      obtain ⟨hip, hport⟩ := hsrc
      split at h
      · next message hm =>
        split at h
        · obtain ⟨hid, hq, src2, data2, hmem, hrest⟩ := ih r h
          exact ⟨hid, hq, src2, data2, List.mem_cons_of_mem _ hmem, hrest⟩
        · next hid =>
          push_neg at hid
          split at h
          · obtain ⟨hid2, hq2, src2, data2, hmem, hrest⟩ := ih r h
            exact ⟨hid2, hq2, src2, data2, List.mem_cons_of_mem _ hmem, hrest⟩
          · next hq =>
            push_neg at hq
            cases h
            refine ⟨hid.symm, ?_, src, data, List.mem_cons_self _ _, hip, hport, hm, rfl⟩
            intro q hmemq
            have hall := List.all_eq_true.mp hq q hmemq
            simpa using hall
      · obtain ⟨hid, hq, src2, data2, hmem, hrest⟩ := ih r h
        exact ⟨hid, hq, src2, data2, List.mem_cons_of_mem _ hmem, hrest⟩

/-- Helper: a response delivered by the receive loop with a verifier is the
verifier's output on the raw bytes of a datagram that passed all four
filters. -/
theorem recvLoop_delivered_verifier (from_vec : List Nat → Except ProtoError Message)
    (msg : SerialMessage) (msg_id : Nat) (recv_buf_size : Nat) (req : Message)
    (v : MessageVerifier)
    (hreq : from_vec msg.bytes = Except.ok req) :
    ∀ (datagrams : List (SocketAddr × List Nat)) (r : DnsResponse),
      recvLoop from_vec msg msg_id (some v) recv_buf_size datagrams =
        LoopResult.delivered r →
      ∃ src data, (src, data) ∈ datagrams ∧ src.ip = msg.addr.ip ∧
        src.port = msg.addr.port ∧
        passesFilters from_vec msg msg_id recv_buf_size req src data = true ∧
        v (data.take recv_buf_size) = Except.ok r := by
  intro datagrams
  induction datagrams with
  | nil => intro r h; simp [recvLoop] at h
  | cons hd tl ih =>
    obtain ⟨src, data⟩ := hd
    intro r h
    simp only [recvLoop, hreq] at h
    split at h
    · obtain ⟨src2, data2, hmem, hrest⟩ := ih r h
      exact ⟨src2, data2, List.mem_cons_of_mem _ hmem, hrest⟩
    · next hsrc =>
      push_neg at hsrc
      obtain ⟨hip, hport⟩ := hsrc
      split at h
      · next message hm =>
        split at h
        · obtain ⟨src2, data2, hmem, hrest⟩ := ih r h
          exact ⟨src2, data2, List.mem_cons_of_mem _ hmem, hrest⟩
        · next hid =>
          push_neg at hid
          split at h
          · obtain ⟨src2, data2, hmem, hrest⟩ := ih r h
            exact ⟨src2, data2, List.mem_cons_of_mem _ hmem, hrest⟩
          · next hq =>
            push_neg at hq
            cases hv : v (data.take recv_buf_size) with
            | error e => rw [hv] at h; cases h
            | ok r2 =>
              rw [hv] at h
              cases h
              refine ⟨src, data, List.mem_cons_self _ _, hip, hport, ?_, hv⟩
              unfold passesFilters
              rw [hip, hport]
              simp only [hm, beq_self_eq_true, Bool.and_self, Bool.true_and, hid, hq]
      · obtain ⟨src2, data2, hmem, hrest⟩ := ih r h
        exact ⟨src2, data2, List.mem_cons_of_mem _ hmem, hrest⟩

/-- C1: a response delivered to the caller by the receive loop comes from a
datagram whose source IP and port equal the queried peer's, parses to a
message whose id equals the id assigned to the sent query and whose every
question is contained in the sent query's question set (with a verifier,
the delivered response is the verifier's output on exactly such a
datagram's raw bytes); and every received datagram failing any of the four
filters — source, parse, id, question — is dropped, the receive loop
continuing on the rest rather than returning an error. -/
theorem recv_loop_response_filters (from_vec : List Nat → Except ProtoError Message)
    (msg : SerialMessage) (msg_id : Nat) (recv_buf_size : Nat) (req : Message)
    (v : MessageVerifier) (datagrams : List (SocketAddr × List Nat))
    (hreq : from_vec msg.bytes = Except.ok req) :
    (∀ r, recvLoop from_vec msg msg_id none recv_buf_size datagrams =
        LoopResult.delivered r →
      r.message.id = msg_id ∧
      (∀ q ∈ r.message.queries, q ∈ req.queries) ∧
      ∃ src data, (src, data) ∈ datagrams ∧ src.ip = msg.addr.ip ∧
        src.port = msg.addr.port ∧
        from_vec (data.take recv_buf_size) = Except.ok r.message ∧
        r.buffer = data.take recv_buf_size) ∧
    (∀ r, recvLoop from_vec msg msg_id (some v) recv_buf_size datagrams =
        LoopResult.delivered r →
      ∃ src data, (src, data) ∈ datagrams ∧ src.ip = msg.addr.ip ∧
        src.port = msg.addr.port ∧
        passesFilters from_vec msg msg_id recv_buf_size req src data = true ∧
        v (data.take recv_buf_size) = Except.ok r) ∧
    (∀ (verifier : Option MessageVerifier) (src : SocketAddr) (data : List Nat)
        (rest : List (SocketAddr × List Nat)),
      passesFilters from_vec msg msg_id recv_buf_size req src data = false →
      recvLoop from_vec msg msg_id verifier recv_buf_size ((src, data) :: rest) =
        recvLoop from_vec msg msg_id verifier recv_buf_size rest) :=
  ⟨recvLoop_delivered_none from_vec msg msg_id recv_buf_size req hreq datagrams,
   recvLoop_delivered_verifier from_vec msg msg_id recv_buf_size req v hreq datagrams,
   fun verifier src data rest hfail =>
     recvLoop_drop_step from_vec msg msg_id verifier recv_buf_size req src data rest
       hreq hfail⟩

/-- Witness for C1 at concrete inputs: the matching datagram from the peer
is delivered with the query id, and a datagram from a wrong source is
dropped while the loop continues. -/
theorem recv_loop_response_filters_witness :
    sampleCodec sampleSerial.bytes = Except.ok sampleRequest ∧
    recvLoop sampleCodec sampleSerial 5 none 512 [(⟨10, 53⟩, [9])] =
      LoopResult.delivered ⟨sampleResponse, [9]⟩ ∧
    (⟨sampleResponse, [9]⟩ : DnsResponse).message.id = 5 ∧
    passesFilters sampleCodec sampleSerial 5 512 sampleRequest ⟨66, 99⟩ [9] = false ∧
    recvLoop sampleCodec sampleSerial 5 none 512 [(⟨66, 99⟩, [9]), (⟨10, 53⟩, [9])] =
      recvLoop sampleCodec sampleSerial 5 none 512 [(⟨10, 53⟩, [9])] := by
  have h := recv_loop_response_filters sampleCodec sampleSerial 5 512 sampleRequest
    (fun _ => Except.error (ProtoError.other 0)) [(⟨10, 53⟩, [9])] rfl
  refine ⟨rfl, by decide, ?_, by decide, ?_⟩
  · exact (h.1 ⟨sampleResponse, [9]⟩ (by decide)).1
  · exact h.2.2 none ⟨66, 99⟩ [9] [(⟨10, 53⟩, [9])] (by decide)

end Hickory
